import Mathlib

/-!
# ideate-go: construction of the secure gRPC channel

Shallow embedding of `alis/ideate/client.go`.

The two functions of the file, `NewClient` and `newConn`, are translated
statement by statement.  Go's `(value, error)` results are kept as a pair of
nil-able components (`Ret`), and every call that leaves the package
(`x509.SystemCertPool`, `grpc.NewClient`, `alog.Errorf`) is recorded, in
program order, in the list of calls returned next to the result.  The
answers of the two fallible library calls are the fields of `Env`.
-/

/-- The Go `error` interface: a non-nil error value, identified by its message. -/
structure GoError where
  msg : String
  deriving DecidableEq, Repr

/-- A `context.Context` handle. -/
structure Context where
  id : Nat
  deriving DecidableEq, Repr

/-- A Go result pair `(value, error)`; `none` is Go's `nil`. -/
structure Ret (α : Type) where
  val : Option α
  err : Option GoError
  deriving DecidableEq, Repr

namespace x509

/-- A `*x509.CertPool` handle. -/
structure CertPool where
  id : Nat
  deriving DecidableEq, Repr

end x509

namespace tls

/-- A `tls.Certificate` handle. -/
structure Certificate where
  id : Nat
  deriving DecidableEq, Repr

/-- A Go function value stored in a configuration field. -/
structure Callback where
  id : Nat
  deriving DecidableEq, Repr

/-- The fields of `tls.Config` that decide whom the client trusts and how it
identifies itself.  Each default is the Go zero value of the field, so that
the structure instance written with one field is the Go composite literal
with that one field. -/
structure Config where
  Certificates : List Certificate := []
  GetClientCertificate : Option Callback := none
  VerifyPeerCertificate : Option Callback := none
  VerifyConnection : Option Callback := none
  RootCAs : Option x509.CertPool := none
  NextProtos : List String := []
  ServerName : String := ""
  ClientCAs : Option x509.CertPool := none
  InsecureSkipVerify : Bool := false
  CipherSuites : List Nat := []
  MinVersion : Nat := 0
  MaxVersion : Nat := 0
  deriving DecidableEq, Repr

end tls

namespace credentials

/-- A `credentials.TransportCredentials` value: either the one built by
`credentials.NewTLS` from a TLS configuration, or some other implementation
a caller may hold. -/
inductive TransportCredentials where
  | NewTLS (c : tls.Config)
  | Other (id : Nat)
  deriving DecidableEq, Repr

end credentials

namespace grpc

/-- A `*grpc.ClientConn` handle. -/
structure ClientConn where
  id : Nat
  deriving DecidableEq, Repr

/-- A `grpc.CallOption`. -/
inductive CallOption where
  | MaxCallSendMsgSize (bytes : Int)
  | MaxCallRecvMsgSize (bytes : Int)
  | Other (id : Nat)
  deriving DecidableEq, Repr

/-- A `grpc.DialOption`: the three kinds `client.go` builds, the blocking-dial
option, and any other option a caller may pass. -/
inductive DialOption where
  | WithDefaultCallOptions (cos : List CallOption)
  | WithAuthority (a : String)
  | WithTransportCredentials (creds : credentials.TransportCredentials)
  | WithBlock
  | Other (id : Nat)
  deriving DecidableEq, Repr

/-- The settings grpc-go accumulates while it applies dial options
(its internal `dialOptions` record, restricted to the fields the options
above write). -/
structure dialOptions where
  authority : String := ""
  callOptions : List CallOption := []
  creds : Option credentials.TransportCredentials := none
  block : Bool := false
  deriving DecidableEq, Repr

/-- Effect of one dial option on the accumulated settings, as in grpc-go:
`WithAuthority` and `WithTransportCredentials` overwrite, `WithDefaultCallOptions`
appends, `WithBlock` sets the flag. -/
def DialOption.apply (o : dialOptions) : DialOption → dialOptions
  | .WithDefaultCallOptions cos => { o with callOptions := o.callOptions ++ cos }
  | .WithAuthority a => { o with authority := a }
  | .WithTransportCredentials c => { o with creds := some c }
  | .WithBlock => { o with block := true }
  | .Other _ => o

/-- Settings of a channel built from an option list: the options are applied
in order, from the empty settings. -/
def configured (opts : List DialOption) : dialOptions :=
  opts.foldl DialOption.apply {}

/-- Send ceiling set by a list of call options (the last setter wins);
`none` leaves the transport default. -/
def maxSendMsgSize (cos : List CallOption) : Option Int :=
  cos.foldl (fun acc c => match c with
    | .MaxCallSendMsgSize n => some n
    | _ => acc) none

/-- Receive ceiling set by a list of call options (the last setter wins);
`none` leaves the transport default. -/
def maxRecvMsgSize (cos : List CallOption) : Option Int :=
  cos.foldl (fun acc c => match c with
    | .MaxCallRecvMsgSize n => some n
    | _ => acc) none

end grpc

namespace ideate

/-- A call that leaves the package, with its arguments. -/
inductive Call where
  | SystemCertPool
  | NewClient (target : String) (opts : List grpc.DialOption)
  | Errorf (ctx : Context) (format : String) (err : GoError)
  deriving DecidableEq, Repr

/-- The answers of the two fallible library calls: the read of the OS trust
store and the channel constructor of grpc-go. -/
structure Env where
  SystemCertPool : Ret x509.CertPool
  NewClient : String → List grpc.DialOption → Ret grpc.ClientConn

/-- A result pair together with the calls made while computing it. -/
structure Run (α : Type) where
  ret : Ret α
  calls : List Call

/-- Modelled from the spec: the generated stub type behind
`NewIdeateServiceClient` (generated gRPC stub code, not part of `client.go`),
which the spec describes as "a concrete channel-backed adapter": a value
holding the connection it was built from. -/
structure ideateServiceClient where
  cc : Option grpc.ClientConn
  deriving DecidableEq, Repr

/-- Modelled from the spec: the generated constructor of the channel-backed
adapter; it stores the connection it is given. -/
def NewIdeateServiceClient (cc : Option grpc.ClientConn) : ideateServiceClient :=
  ⟨cc⟩

/-- The constant `ideateDefaultHost` of `client.go`. -/
def ideateDefaultHost : String :=
  "gateway-ideate-v1-597696786316.europe-west1.run.app:443"

/-- The function `newConn` of `client.go`. -/
def newConn (env : Env) (_ctx : Context) (host : String)
    (opts : List grpc.DialOption) : Run grpc.ClientConn :=
  let opts := if host ≠ "" then opts ++ [grpc.DialOption.WithAuthority host] else opts
  let r := env.SystemCertPool
  let systemRoots := r.val
  match r.err with
  | some err => ⟨⟨none, some err⟩, [Call.SystemCertPool]⟩
  | none =>
    let cred := credentials.TransportCredentials.NewTLS { RootCAs := systemRoots }
    let opts := opts ++ [grpc.DialOption.WithTransportCredentials cred]
    ⟨env.NewClient host opts, [Call.SystemCertPool, Call.NewClient host opts]⟩

/-- The local `maxSizeOptions` of `NewClient`. -/
def maxSizeOptions : grpc.DialOption :=
  grpc.DialOption.WithDefaultCallOptions
    [grpc.CallOption.MaxCallSendMsgSize 2000000000,
     grpc.CallOption.MaxCallRecvMsgSize 2000000000]

/-- The function `NewClient` of `client.go`. -/
def NewClient (env : Env) (ctx : Context) : Run ideateServiceClient :=
  let c := newConn env ctx ideateDefaultHost [maxSizeOptions]
  let connIdeate := c.ret.val
  match c.ret.err with
  | some err =>
    ⟨⟨none, some err⟩, c.calls ++ [Call.Errorf ctx "failed to connect to ideate: %v" err]⟩
  | none => ⟨⟨some (NewIdeateServiceClient connIdeate), none⟩, c.calls⟩

/-- An environment in which the trust store loads and the channel
constructor succeeds. -/
def envOk : Env :=
  ⟨⟨some ⟨1⟩, none⟩, fun _ _ => ⟨some ⟨7⟩, none⟩⟩

/-- An environment in which the read of the trust store fails with `e`. -/
def envStoreFails (e : GoError) : Env :=
  ⟨⟨none, some e⟩, fun _ _ => ⟨some ⟨7⟩, none⟩⟩

/-- An environment in which the trust store loads and the channel
constructor rejects its arguments with `e`. -/
def envDialFails (e : GoError) : Env :=
  ⟨⟨some ⟨1⟩, none⟩, fun _ _ => ⟨none, some e⟩⟩

/-- The option list handed to `grpc.NewClient`, as a list expression. -/
theorem newConn_of_store_ok (env : Env) (ctx : Context) (host : String)
    (opts : List grpc.DialOption) (hok : env.SystemCertPool.err = none) :
    newConn env ctx host opts =
      ⟨env.NewClient host
          (opts ++ (if host ≠ "" then [grpc.DialOption.WithAuthority host] else [])
            ++ [grpc.DialOption.WithTransportCredentials
                  (credentials.TransportCredentials.NewTLS
                    ⟨[], none, none, none, env.SystemCertPool.val, [], "", none, false, [], 0, 0⟩)]),
        [Call.SystemCertPool,
          Call.NewClient host
            (opts ++ (if host ≠ "" then [grpc.DialOption.WithAuthority host] else [])
              ++ [grpc.DialOption.WithTransportCredentials
                    (credentials.TransportCredentials.NewTLS
                      ⟨[], none, none, none, env.SystemCertPool.val, [], "", none, false, [], 0, 0⟩)])]⟩ := by
  unfold newConn
  simp only [hok]
  by_cases hh : host = "" <;> simp [hh]

/-- A failed read of the trust store ends the run at once. -/
theorem newConn_of_store_err (env : Env) (ctx : Context) (host : String)
    (opts : List grpc.DialOption) (e : GoError) (herr : env.SystemCertPool.err = some e) :
    newConn env ctx host opts = ⟨⟨none, some e⟩, [Call.SystemCertPool]⟩ := by
  unfold newConn
  simp only [herr]

/-- The default host is not the empty string. -/
theorem ideateDefaultHost_ne_empty : ideateDefaultHost ≠ "" := by
  decide

/-- Shape of a run of `NewClient` when the trust store loads: one read of the
trust store, one call of `grpc.NewClient` on the default host, and a log line
exactly when that call fails. -/
theorem NewClient_of_store_ok (env : Env) (ctx : Context)
    (hok : env.SystemCertPool.err = none) :
    NewClient env ctx =
      match (env.NewClient ideateDefaultHost
          [maxSizeOptions, grpc.DialOption.WithAuthority ideateDefaultHost,
            grpc.DialOption.WithTransportCredentials
              (credentials.TransportCredentials.NewTLS
                ⟨[], none, none, none, env.SystemCertPool.val, [], "", none, false, [], 0, 0⟩)]).err with
      | some err =>
        ⟨⟨none, some err⟩,
          [Call.SystemCertPool,
            Call.NewClient ideateDefaultHost
              [maxSizeOptions, grpc.DialOption.WithAuthority ideateDefaultHost,
                grpc.DialOption.WithTransportCredentials
                  (credentials.TransportCredentials.NewTLS
                    ⟨[], none, none, none, env.SystemCertPool.val, [], "", none, false, [], 0, 0⟩)],
            Call.Errorf ctx "failed to connect to ideate: %v" err]⟩
      | none =>
        ⟨⟨some (NewIdeateServiceClient (env.NewClient ideateDefaultHost
            [maxSizeOptions, grpc.DialOption.WithAuthority ideateDefaultHost,
              grpc.DialOption.WithTransportCredentials
                (credentials.TransportCredentials.NewTLS
                  ⟨[], none, none, none, env.SystemCertPool.val, [], "", none, false, [], 0, 0⟩)]).val),
            none⟩,
          [Call.SystemCertPool,
            Call.NewClient ideateDefaultHost
              [maxSizeOptions, grpc.DialOption.WithAuthority ideateDefaultHost,
                grpc.DialOption.WithTransportCredentials
                  (credentials.TransportCredentials.NewTLS
                    ⟨[], none, none, none, env.SystemCertPool.val, [], "", none, false, [], 0, 0⟩)]]⟩ := by
  unfold NewClient
  rw [newConn_of_store_ok env ctx ideateDefaultHost [maxSizeOptions] hok]
  simp only [ideateDefaultHost_ne_empty, ne_eq, not_false_eq_true, if_true, List.singleton_append,
    List.cons_append, List.nil_append]

/-- Shape of a run of `NewClient` when the trust store cannot be read. -/
theorem NewClient_of_store_err (env : Env) (ctx : Context) (e : GoError)
    (herr : env.SystemCertPool.err = some e) :
    NewClient env ctx =
      ⟨⟨none, some e⟩,
        [Call.SystemCertPool, Call.Errorf ctx "failed to connect to ideate: %v" e]⟩ := by
  unfold NewClient
  rw [newConn_of_store_err env ctx ideateDefaultHost [maxSizeOptions] e herr]
  rfl

/-! ## What grpc-go configures from the list `newConn` sends -/

/-- Settings of a concatenation: the second list is applied on top of the
settings of the first. -/
theorem configured_append (xs ys : List grpc.DialOption) :
    grpc.configured (xs ++ ys) = ys.foldl grpc.DialOption.apply (grpc.configured xs) := by
  simp [grpc.configured, List.foldl_append]

/-- The options `newConn` appends leave call options and blocking flag as the
caller's list configured them. -/
theorem configured_sent_keeps (host : String) (opts : List grpc.DialOption)
    (c : credentials.TransportCredentials) :
    (grpc.configured (opts ++ (if host ≠ "" then [grpc.DialOption.WithAuthority host] else [])
        ++ [grpc.DialOption.WithTransportCredentials c])).callOptions
      = (grpc.configured opts).callOptions ∧
    (grpc.configured (opts ++ (if host ≠ "" then [grpc.DialOption.WithAuthority host] else [])
        ++ [grpc.DialOption.WithTransportCredentials c])).block
      = (grpc.configured opts).block := by
  by_cases hh : host = ""
  · simp [hh, configured_append, grpc.DialOption.apply]
  · simp [hh, configured_append, grpc.DialOption.apply]

/-! ## The claims -/

/-- C1: for every non-empty host `h` and every caller-supplied option list,
when the system trust store loads, `newConn` calls `grpc.NewClient` with an
option list that contains `WithAuthority h`, and the authority that list
configures on the channel is `h`. -/
theorem newConn_authority_eq_host (env : Env) (ctx : Context) (h : String)
    (opts : List grpc.DialOption) (hne : h ≠ "")
    (hok : env.SystemCertPool.err = none) :
    ∃ sent, (newConn env ctx h opts).calls
        = [Call.SystemCertPool, Call.NewClient h sent] ∧
      (newConn env ctx h opts).ret = env.NewClient h sent ∧
      grpc.DialOption.WithAuthority h ∈ sent ∧
      (grpc.configured sent).authority = h := by
  rw [newConn_of_store_ok env ctx h opts hok]
  refine ⟨_, rfl, rfl, ?_, ?_⟩
  · simp [hne]
  · simp [hne, configured_append, grpc.DialOption.apply]

/-- Witness of C1 at the host of the spec's scenario, with a caller list that
already carries another authority. -/
theorem newConn_authority_eq_host_witness :
    ∃ sent, (newConn envOk ⟨0⟩ "custom.example.com:443"
          [grpc.DialOption.WithAuthority "other.example.com:443"]).calls
        = [Call.SystemCertPool, Call.NewClient "custom.example.com:443" sent] ∧
      (newConn envOk ⟨0⟩ "custom.example.com:443"
          [grpc.DialOption.WithAuthority "other.example.com:443"]).ret
        = envOk.NewClient "custom.example.com:443" sent ∧
      grpc.DialOption.WithAuthority "custom.example.com:443" ∈ sent ∧
      (grpc.configured sent).authority = "custom.example.com:443" :=
  newConn_authority_eq_host envOk ⟨0⟩ "custom.example.com:443"
    [grpc.DialOption.WithAuthority "other.example.com:443"] (by decide) rfl

/-- C2, as stated, fails: called with the empty host while the trust store
loads, `newConn` dials the empty string, and no call to `grpc.NewClient` has
`ideateDefaultHost` as its target. -/
theorem newConn_empty_host_not_default :
    (newConn envOk ⟨0⟩ "" []).calls
        = [Call.SystemCertPool,
            Call.NewClient ""
              [grpc.DialOption.WithTransportCredentials
                (credentials.TransportCredentials.NewTLS
                  ⟨[], none, none, none, some ⟨1⟩, [], "", none, false, [], 0, 0⟩)]] ∧
      ¬ ∃ sent, Call.NewClient ideateDefaultHost sent ∈ (newConn envOk ⟨0⟩ "" []).calls := by
  refine ⟨rfl, ?_⟩
  rintro ⟨sent, hmem⟩
  rw [newConn_of_store_ok envOk ⟨0⟩ "" [] rfl] at hmem
  simp [ideateDefaultHost] at hmem

/-- C2, amended: for the empty host, when the trust store loads, `newConn`
dials the empty string itself, with the caller's options followed by the
transport credentials only; it adds no authority option, so the configured
authority is the one the caller's options configured.  The default constant
is the dial target of `NewClient`, which passes it as the host. -/
theorem newConn_empty_host_dials_empty (env : Env) (ctx : Context)
    (opts : List grpc.DialOption) (hok : env.SystemCertPool.err = none) :
    (newConn env ctx "" opts).calls
        = [Call.SystemCertPool,
            Call.NewClient "" (opts ++ [grpc.DialOption.WithTransportCredentials
              (credentials.TransportCredentials.NewTLS
                ⟨[], none, none, none, env.SystemCertPool.val, [], "", none, false, [], 0, 0⟩)])] ∧
      (newConn env ctx "" opts).ret
        = env.NewClient "" (opts ++ [grpc.DialOption.WithTransportCredentials
              (credentials.TransportCredentials.NewTLS
                ⟨[], none, none, none, env.SystemCertPool.val, [], "", none, false, [], 0, 0⟩)]) ∧
      (grpc.configured (opts ++ [grpc.DialOption.WithTransportCredentials
              (credentials.TransportCredentials.NewTLS
                ⟨[], none, none, none, env.SystemCertPool.val, [], "", none, false, [], 0, 0⟩)])).authority
        = (grpc.configured opts).authority ∧
      ∃ sent, (NewClient env ctx).calls.take 2
          = [Call.SystemCertPool, Call.NewClient ideateDefaultHost sent] := by
  refine ⟨?_, ?_, ?_, ?_⟩
  · rw [newConn_of_store_ok env ctx "" opts hok]; simp
  · rw [newConn_of_store_ok env ctx "" opts hok]; simp
  · simp [configured_append, grpc.DialOption.apply]
  · rw [NewClient_of_store_ok env ctx hok]
    refine ⟨[maxSizeOptions, grpc.DialOption.WithAuthority ideateDefaultHost,
      grpc.DialOption.WithTransportCredentials
        (credentials.TransportCredentials.NewTLS
          ⟨[], none, none, none, env.SystemCertPool.val, [], "", none, false, [], 0, 0⟩)], ?_⟩
    split <;> rfl

/-- Witness of the amended C2. -/
theorem newConn_empty_host_dials_empty_witness :
    (newConn envOk ⟨0⟩ "" [grpc.DialOption.WithBlock]).calls
        = [Call.SystemCertPool,
            Call.NewClient "" ([grpc.DialOption.WithBlock] ++
              [grpc.DialOption.WithTransportCredentials
                (credentials.TransportCredentials.NewTLS
                  ⟨[], none, none, none, envOk.SystemCertPool.val, [], "", none, false, [], 0, 0⟩)])] ∧
      (newConn envOk ⟨0⟩ "" [grpc.DialOption.WithBlock]).ret
        = envOk.NewClient "" ([grpc.DialOption.WithBlock] ++
              [grpc.DialOption.WithTransportCredentials
                (credentials.TransportCredentials.NewTLS
                  ⟨[], none, none, none, envOk.SystemCertPool.val, [], "", none, false, [], 0, 0⟩)]) ∧
      (grpc.configured ([grpc.DialOption.WithBlock] ++
              [grpc.DialOption.WithTransportCredentials
                (credentials.TransportCredentials.NewTLS
                  ⟨[], none, none, none, envOk.SystemCertPool.val, [], "", none, false, [], 0, 0⟩)])).authority
        = (grpc.configured [grpc.DialOption.WithBlock]).authority ∧
      ∃ sent, (NewClient envOk ⟨0⟩).calls.take 2
          = [Call.SystemCertPool, Call.NewClient ideateDefaultHost sent] :=
  newConn_empty_host_dials_empty envOk ⟨0⟩ [grpc.DialOption.WithBlock] rfl

/-- C3: when the trust store loads, the option list that reaches
`grpc.NewClient` from `NewClient` carries the default call options
`MaxCallSendMsgSize 2000000000` and `MaxCallRecvMsgSize 2000000000`, and the
send and receive ceilings it configures are both exactly 2,000,000,000, a
positive number; the same holds for `newConn` on every host `h` given those
size options, so the ceilings do not depend on the target address. -/
theorem message_size_ceilings (env : Env) (ctx : Context) (h : String)
    (hok : env.SystemCertPool.err = none) :
    (∃ sent, (NewClient env ctx).calls.take 2
          = [Call.SystemCertPool, Call.NewClient ideateDefaultHost sent] ∧
        grpc.DialOption.WithDefaultCallOptions
            [grpc.CallOption.MaxCallSendMsgSize 2000000000,
              grpc.CallOption.MaxCallRecvMsgSize 2000000000] ∈ sent ∧
        grpc.maxSendMsgSize (grpc.configured sent).callOptions = some 2000000000 ∧
        grpc.maxRecvMsgSize (grpc.configured sent).callOptions = some 2000000000) ∧
      (∃ sent, (newConn env ctx h [maxSizeOptions]).calls
          = [Call.SystemCertPool, Call.NewClient h sent] ∧
        grpc.DialOption.WithDefaultCallOptions
            [grpc.CallOption.MaxCallSendMsgSize 2000000000,
              grpc.CallOption.MaxCallRecvMsgSize 2000000000] ∈ sent ∧
        grpc.maxSendMsgSize (grpc.configured sent).callOptions = some 2000000000 ∧
        grpc.maxRecvMsgSize (grpc.configured sent).callOptions = some 2000000000) ∧
      (0 : Int) < 2000000000 := by
  refine ⟨?_, ?_, by norm_num⟩
  · rw [NewClient_of_store_ok env ctx hok]
    refine ⟨[maxSizeOptions, grpc.DialOption.WithAuthority ideateDefaultHost,
      grpc.DialOption.WithTransportCredentials
        (credentials.TransportCredentials.NewTLS
          ⟨[], none, none, none, env.SystemCertPool.val, [], "", none, false, [], 0, 0⟩)],
      ?_, ?_, ?_, ?_⟩
    · split <;> rfl
    · simp [maxSizeOptions]
    · rfl
    · rfl
  · rw [newConn_of_store_ok env ctx h [maxSizeOptions] hok]
    refine ⟨_, rfl, ?_, ?_, ?_⟩
    · simp [maxSizeOptions]
    · rw [(configured_sent_keeps h [maxSizeOptions] _).1]; rfl
    · rw [(configured_sent_keeps h [maxSizeOptions] _).1]; rfl

/-- Witness of C3 on a host other than the default one. -/
theorem message_size_ceilings_witness :
    (∃ sent, (NewClient envOk ⟨0⟩).calls.take 2
          = [Call.SystemCertPool, Call.NewClient ideateDefaultHost sent] ∧
        grpc.DialOption.WithDefaultCallOptions
            [grpc.CallOption.MaxCallSendMsgSize 2000000000,
              grpc.CallOption.MaxCallRecvMsgSize 2000000000] ∈ sent ∧
        grpc.maxSendMsgSize (grpc.configured sent).callOptions = some 2000000000 ∧
        grpc.maxRecvMsgSize (grpc.configured sent).callOptions = some 2000000000) ∧
      (∃ sent, (newConn envOk ⟨0⟩ "custom.example.com:443" [maxSizeOptions]).calls
          = [Call.SystemCertPool, Call.NewClient "custom.example.com:443" sent] ∧
        grpc.DialOption.WithDefaultCallOptions
            [grpc.CallOption.MaxCallSendMsgSize 2000000000,
              grpc.CallOption.MaxCallRecvMsgSize 2000000000] ∈ sent ∧
        grpc.maxSendMsgSize (grpc.configured sent).callOptions = some 2000000000 ∧
        grpc.maxRecvMsgSize (grpc.configured sent).callOptions = some 2000000000) ∧
      (0 : Int) < 2000000000 :=
  message_size_ceilings envOk ⟨0⟩ "custom.example.com:443" rfl

/-- C4: whenever the read of the OS trust store fails with an error `e`, for
every host and option list `newConn` returns a nil connection with `e` and
makes no call to `grpc.NewClient`, and `NewClient` returns a nil client with
the same `e`, again without any call to `grpc.NewClient`. -/
theorem trust_store_failure_no_channel (env : Env) (ctx : Context) (host : String)
    (opts : List grpc.DialOption) (e : GoError)
    (herr : env.SystemCertPool.err = some e) :
    (newConn env ctx host opts).ret = ⟨none, some e⟩ ∧
      (∀ target sent, Call.NewClient target sent ∉ (newConn env ctx host opts).calls) ∧
      (NewClient env ctx).ret = ⟨none, some e⟩ ∧
      (∀ target sent, Call.NewClient target sent ∉ (NewClient env ctx).calls) := by
  rw [newConn_of_store_err env ctx host opts e herr, NewClient_of_store_err env ctx e herr]
  simp

/-- Witness of C4 in an environment whose trust store cannot be read. -/
theorem trust_store_failure_no_channel_witness :
    (newConn (envStoreFails ⟨"x509: system roots unavailable"⟩) ⟨0⟩
          "custom.example.com:443" []).ret
        = ⟨none, some ⟨"x509: system roots unavailable"⟩⟩ ∧
      (∀ target sent, Call.NewClient target sent
        ∉ (newConn (envStoreFails ⟨"x509: system roots unavailable"⟩) ⟨0⟩
            "custom.example.com:443" []).calls) ∧
      (NewClient (envStoreFails ⟨"x509: system roots unavailable"⟩) ⟨0⟩).ret
        = ⟨none, some ⟨"x509: system roots unavailable"⟩⟩ ∧
      (∀ target sent, Call.NewClient target sent
        ∉ (NewClient (envStoreFails ⟨"x509: system roots unavailable"⟩) ⟨0⟩).calls) :=
  trust_store_failure_no_channel (envStoreFails ⟨"x509: system roots unavailable"⟩) ⟨0⟩
    "custom.example.com:443" [] ⟨"x509: system roots unavailable"⟩ rfl

/-- C5: for every context, `NewClient` is `newConn` run on the host
`ideateDefaultHost` (same error, its calls first); every call of
`grpc.NewClient` it makes has that constant as dial target and configures
that constant as authority, and such a call is made whenever the trust store
loads; the constant is a non-empty host name, without a colon, followed by
the port suffix ":443". -/
theorem NewClient_targets_default_host (env : Env) (ctx : Context) :
    (NewClient env ctx).ret.err = (newConn env ctx ideateDefaultHost [maxSizeOptions]).ret.err ∧
      (newConn env ctx ideateDefaultHost [maxSizeOptions]).calls <+: (NewClient env ctx).calls ∧
      (∀ target sent, Call.NewClient target sent ∈ (NewClient env ctx).calls →
        target = ideateDefaultHost ∧ (grpc.configured sent).authority = ideateDefaultHost) ∧
      (env.SystemCertPool.err = none →
        ∃ sent, Call.NewClient ideateDefaultHost sent ∈ (NewClient env ctx).calls) ∧
      (∃ name : List Char, name ≠ [] ∧ ':' ∉ name ∧
        ideateDefaultHost.data = name ++ [':', '4', '4', '3']) := by
  refine ⟨?_, ?_, ?_, ?_, ?_⟩
  · unfold NewClient
    dsimp only
    cases (newConn env ctx ideateDefaultHost [maxSizeOptions]).ret.err <;> rfl
  · unfold NewClient
    dsimp only
    cases (newConn env ctx ideateDefaultHost [maxSizeOptions]).ret.err <;> simp
  · intro target sent hmem
    cases hs : env.SystemCertPool.err with
    | some e =>
      rw [NewClient_of_store_err env ctx e hs] at hmem
      simp at hmem
    | none =>
      rw [NewClient_of_store_ok env ctx hs] at hmem
      have key : target = ideateDefaultHost ∧ sent =
          [maxSizeOptions, grpc.DialOption.WithAuthority ideateDefaultHost,
            grpc.DialOption.WithTransportCredentials
              (credentials.TransportCredentials.NewTLS
                ⟨[], none, none, none, env.SystemCertPool.val, [], "", none, false, [], 0, 0⟩)] := by
        split at hmem <;> simpa using hmem
      refine ⟨key.1, ?_⟩
      rw [key.2]
      rfl
  · intro hok
    rw [NewClient_of_store_ok env ctx hok]
    refine ⟨[maxSizeOptions, grpc.DialOption.WithAuthority ideateDefaultHost,
      grpc.DialOption.WithTransportCredentials
        (credentials.TransportCredentials.NewTLS
          ⟨[], none, none, none, env.SystemCertPool.val, [], "", none, false, [], 0, 0⟩)], ?_⟩
    split <;> simp
  · exact ⟨"gateway-ideate-v1-597696786316.europe-west1.run.app".data, by decide, by decide, by decide⟩

/-- Witness of C5: in an environment whose trust store loads, the call of
`grpc.NewClient` on the default host is made. -/
theorem NewClient_targets_default_host_witness :
    ∃ sent, Call.NewClient ideateDefaultHost sent ∈ (NewClient envOk ⟨0⟩).calls :=
  (NewClient_targets_default_host envOk ⟨0⟩).2.2.2.1 rfl

/-- C6: when the trust store loads, the last option `newConn` hands to
`grpc.NewClient` is the transport-credentials option built by
`credentials.NewTLS` from a TLS configuration whose root CA set is exactly the
pool the trust-store read returned and whose other fields are all zero: no
client certificate or client-certificate callback, no client CA set, no
verification callback, no server-name override, verification not skipped;
these are the credentials the channel is configured with. -/
theorem tls_config_system_roots_only (env : Env) (ctx : Context) (host : String)
    (opts : List grpc.DialOption) (hok : env.SystemCertPool.err = none) :
    ∃ front cfg, (newConn env ctx host opts).calls
        = [Call.SystemCertPool,
            Call.NewClient host (front ++ [grpc.DialOption.WithTransportCredentials
              (credentials.TransportCredentials.NewTLS cfg)])] ∧
      (grpc.configured (front ++ [grpc.DialOption.WithTransportCredentials
              (credentials.TransportCredentials.NewTLS cfg)])).creds
        = some (credentials.TransportCredentials.NewTLS cfg) ∧
      cfg.RootCAs = env.SystemCertPool.val ∧
      cfg.Certificates = [] ∧ cfg.GetClientCertificate = none ∧ cfg.ClientCAs = none ∧
      cfg.VerifyPeerCertificate = none ∧ cfg.VerifyConnection = none ∧
      cfg.InsecureSkipVerify = false ∧ cfg.ServerName = "" ∧ cfg.NextProtos = [] ∧
      cfg.CipherSuites = [] ∧ cfg.MinVersion = 0 ∧ cfg.MaxVersion = 0 := by
  rw [newConn_of_store_ok env ctx host opts hok]
  refine ⟨opts ++ (if host ≠ "" then [grpc.DialOption.WithAuthority host] else []),
    ⟨[], none, none, none, env.SystemCertPool.val, [], "", none, false, [], 0, 0⟩,
    rfl, ?_, rfl, rfl, rfl, rfl, rfl, rfl, rfl, rfl, rfl, rfl, rfl, rfl⟩
  simp [configured_append, grpc.DialOption.apply]

/-- Witness of C6, with a caller list that carries other credentials. -/
theorem tls_config_system_roots_only_witness :
    ∃ front cfg, (newConn envOk ⟨0⟩ "custom.example.com:443"
          [grpc.DialOption.WithTransportCredentials (credentials.TransportCredentials.Other 3)]).calls
        = [Call.SystemCertPool,
            Call.NewClient "custom.example.com:443"
              (front ++ [grpc.DialOption.WithTransportCredentials
                (credentials.TransportCredentials.NewTLS cfg)])] ∧
      (grpc.configured (front ++ [grpc.DialOption.WithTransportCredentials
              (credentials.TransportCredentials.NewTLS cfg)])).creds
        = some (credentials.TransportCredentials.NewTLS cfg) ∧
      cfg.RootCAs = envOk.SystemCertPool.val ∧
      cfg.Certificates = [] ∧ cfg.GetClientCertificate = none ∧ cfg.ClientCAs = none ∧
      cfg.VerifyPeerCertificate = none ∧ cfg.VerifyConnection = none ∧
      cfg.InsecureSkipVerify = false ∧ cfg.ServerName = "" ∧ cfg.NextProtos = [] ∧
      cfg.CipherSuites = [] ∧ cfg.MinVersion = 0 ∧ cfg.MaxVersion = 0 :=
  tls_config_system_roots_only envOk ⟨0⟩ "custom.example.com:443"
    [grpc.DialOption.WithTransportCredentials (credentials.TransportCredentials.Other 3)] rfl

/-- C9: `NewClient` returns exactly one of a client and an error.  It returns
`(nil, e)` exactly when `newConn` on the default host returns the error `e`;
when `newConn` returns no error it returns the client built from the
connection `newConn` returned, with a nil error.  When the trust store loads,
the result of `newConn` is the result of its call of `grpc.NewClient`, so an
error of that call (such as an invalid target) is what `NewClient` returns. -/
theorem NewClient_client_or_error (env : Env) (ctx : Context) :
    (((NewClient env ctx).ret.val = none ∧ (NewClient env ctx).ret.err ≠ none) ∨
        ((NewClient env ctx).ret.val ≠ none ∧ (NewClient env ctx).ret.err = none)) ∧
      (∀ e, (NewClient env ctx).ret = ⟨none, some e⟩ ↔
        (newConn env ctx ideateDefaultHost [maxSizeOptions]).ret.err = some e) ∧
      ((newConn env ctx ideateDefaultHost [maxSizeOptions]).ret.err = none →
        (NewClient env ctx).ret
          = ⟨some (NewIdeateServiceClient
              (newConn env ctx ideateDefaultHost [maxSizeOptions]).ret.val), none⟩ ∧
        (NewIdeateServiceClient
          (newConn env ctx ideateDefaultHost [maxSizeOptions]).ret.val).cc
          = (newConn env ctx ideateDefaultHost [maxSizeOptions]).ret.val) ∧
      (env.SystemCertPool.err = none →
        ∃ sent, (newConn env ctx ideateDefaultHost [maxSizeOptions]).calls
            = [Call.SystemCertPool, Call.NewClient ideateDefaultHost sent] ∧
          (newConn env ctx ideateDefaultHost [maxSizeOptions]).ret
            = env.NewClient ideateDefaultHost sent ∧
          ∀ e, (env.NewClient ideateDefaultHost sent).err = some e →
            (NewClient env ctx).ret = ⟨none, some e⟩) := by
  have hshape : ∀ e, (NewClient env ctx).ret = ⟨none, some e⟩ ↔
      (newConn env ctx ideateDefaultHost [maxSizeOptions]).ret.err = some e := by
    intro e
    unfold NewClient
    dsimp only
    cases (newConn env ctx ideateDefaultHost [maxSizeOptions]).ret.err <;> simp
  refine ⟨?_, hshape, ?_, ?_⟩
  · unfold NewClient
    dsimp only
    cases (newConn env ctx ideateDefaultHost [maxSizeOptions]).ret.err <;> simp
  · intro hnil
    unfold NewClient
    dsimp only
    rw [hnil]
    exact ⟨rfl, rfl⟩
  · intro hok
    have hc := newConn_of_store_ok env ctx ideateDefaultHost [maxSizeOptions] hok
    refine ⟨[maxSizeOptions]
      ++ (if ideateDefaultHost ≠ "" then [grpc.DialOption.WithAuthority ideateDefaultHost] else [])
      ++ [grpc.DialOption.WithTransportCredentials
            (credentials.TransportCredentials.NewTLS
              ⟨[], none, none, none, env.SystemCertPool.val, [], "", none, false, [], 0, 0⟩)],
      ?_, ?_, ?_⟩
    · rw [hc]
    · rw [hc]
    · intro e he
      rw [hshape e, hc]
      exact he

/-- Witness of C9: a rejected target is passed through, and a successful run
yields the client of the connection. -/
theorem NewClient_client_or_error_witness :
    (∃ sent, (newConn (envDialFails ⟨"grpc: invalid target"⟩) ⟨0⟩ ideateDefaultHost
            [maxSizeOptions]).calls
          = [Call.SystemCertPool, Call.NewClient ideateDefaultHost sent] ∧
        (newConn (envDialFails ⟨"grpc: invalid target"⟩) ⟨0⟩ ideateDefaultHost
            [maxSizeOptions]).ret
          = (envDialFails ⟨"grpc: invalid target"⟩).NewClient ideateDefaultHost sent ∧
        ∀ e, ((envDialFails ⟨"grpc: invalid target"⟩).NewClient ideateDefaultHost sent).err
            = some e →
          (NewClient (envDialFails ⟨"grpc: invalid target"⟩) ⟨0⟩).ret = ⟨none, some e⟩) ∧
      ((NewClient envOk ⟨0⟩).ret
          = ⟨some (NewIdeateServiceClient
              (newConn envOk ⟨0⟩ ideateDefaultHost [maxSizeOptions]).ret.val), none⟩ ∧
        (NewIdeateServiceClient
          (newConn envOk ⟨0⟩ ideateDefaultHost [maxSizeOptions]).ret.val).cc
          = (newConn envOk ⟨0⟩ ideateDefaultHost [maxSizeOptions]).ret.val) :=
  ⟨(NewClient_client_or_error (envDialFails ⟨"grpc: invalid target"⟩) ⟨0⟩).2.2.2 rfl,
    (NewClient_client_or_error envOk ⟨0⟩).2.2.1 rfl⟩

/-- C10: for every host `h` and caller list `opts`, when the trust store
loads, the list `newConn` hands to `grpc.NewClient` is exactly `opts`,
followed by `WithAuthority h` if and only if `h` is non-empty, followed by the
system-roots TLS transport-credentials option.  So `opts` is a prefix of it,
its length is `|opts| + 2` for non-empty `h` and `|opts| + 1` for empty `h`,
its last element is the transport-credentials option, and these are the
credentials the channel is configured with, whatever `opts` held. -/
theorem newConn_sent_option_list (env : Env) (ctx : Context) (h : String)
    (opts : List grpc.DialOption) (hok : env.SystemCertPool.err = none) :
    ∃ sent, (newConn env ctx h opts).calls = [Call.SystemCertPool, Call.NewClient h sent] ∧
      sent = opts ++ (if h ≠ "" then [grpc.DialOption.WithAuthority h] else [])
        ++ [grpc.DialOption.WithTransportCredentials
              (credentials.TransportCredentials.NewTLS
                ⟨[], none, none, none, env.SystemCertPool.val, [], "", none, false, [], 0, 0⟩)] ∧
      opts <+: sent ∧
      (h ≠ "" → sent.length = opts.length + 2) ∧
      (h = "" → sent.length = opts.length + 1) ∧
      sent.getLast? = some (grpc.DialOption.WithTransportCredentials
              (credentials.TransportCredentials.NewTLS
                ⟨[], none, none, none, env.SystemCertPool.val, [], "", none, false, [], 0, 0⟩)) ∧
      (grpc.configured sent).creds = some (credentials.TransportCredentials.NewTLS
                ⟨[], none, none, none, env.SystemCertPool.val, [], "", none, false, [], 0, 0⟩) := by
  rw [newConn_of_store_ok env ctx h opts hok]
  refine ⟨_, rfl, rfl, ?_, ?_, ?_, ?_, ?_⟩
  · rw [List.append_assoc]
    exact List.prefix_append _ _
  · intro hne
    simp [hne]
  · intro he
    simp [he]
  · simp
  · simp [configured_append, grpc.DialOption.apply]

/-- Witness of C10: a non-empty host and a caller list of two options, one of
them a credentials option. -/
theorem newConn_sent_option_list_witness :
    ∃ sent, (newConn envOk ⟨0⟩ "custom.example.com:443"
          [grpc.DialOption.WithTransportCredentials (credentials.TransportCredentials.Other 3),
            grpc.DialOption.Other 5]).calls
        = [Call.SystemCertPool, Call.NewClient "custom.example.com:443" sent] ∧
      sent = [grpc.DialOption.WithTransportCredentials (credentials.TransportCredentials.Other 3),
            grpc.DialOption.Other 5]
        ++ (if "custom.example.com:443" ≠ ""
            then [grpc.DialOption.WithAuthority "custom.example.com:443"] else [])
        ++ [grpc.DialOption.WithTransportCredentials
              (credentials.TransportCredentials.NewTLS
                ⟨[], none, none, none, envOk.SystemCertPool.val, [], "", none, false, [], 0, 0⟩)] ∧
      [grpc.DialOption.WithTransportCredentials (credentials.TransportCredentials.Other 3),
            grpc.DialOption.Other 5] <+: sent ∧
      ("custom.example.com:443" ≠ "" →
        sent.length = [grpc.DialOption.WithTransportCredentials
            (credentials.TransportCredentials.Other 3), grpc.DialOption.Other 5].length + 2) ∧
      ("custom.example.com:443" = "" →
        sent.length = [grpc.DialOption.WithTransportCredentials
            (credentials.TransportCredentials.Other 3), grpc.DialOption.Other 5].length + 1) ∧
      sent.getLast? = some (grpc.DialOption.WithTransportCredentials
              (credentials.TransportCredentials.NewTLS
                ⟨[], none, none, none, envOk.SystemCertPool.val, [], "", none, false, [], 0, 0⟩)) ∧
      (grpc.configured sent).creds = some (credentials.TransportCredentials.NewTLS
                ⟨[], none, none, none, envOk.SystemCertPool.val, [], "", none, false, [], 0, 0⟩) :=
  newConn_sent_option_list envOk ⟨0⟩ "custom.example.com:443"
    [grpc.DialOption.WithTransportCredentials (credentials.TransportCredentials.Other 3),
      grpc.DialOption.Other 5] rfl

end ideate
